import Mathlib

/-!
Verification of the `image2image_command` handler from
`src/llm_tools/commands/image2image.py`.

The handler is a Python async generator.  We embed one invocation as a pure
function from the behaviour of its collaborators (rate limiter, image
extractor, configuration store, API client, wall clock) to the finite list of
observable events it produces, in order: collaborator calls, yielded reply
messages, and the rate-limiter release performed in the `finally` block.

Numeric parameters: `steps` is a Python `int`, embedded as `Int`;
`guidance_scale` is a Python `float`, embedded as `Rat` (every value the
claims mention is an exactly representable short decimal, and the comparisons
`< 1.0` / `> 20.0` on such values agree between `float` and `Rat`).
Wall-clock elapsed time is embedded as a whole number of centiseconds, since
the handler only reports it formatted to two decimal places.
-/

namespace Image2Image

/-- One segment of a composite (`chain_result`) reply: either an image loaded
from a file-system path (`Image.fromFileSystem`) or a plain text (`Plain`). -/
inductive Seg where
  | image (path : String)
  | text (s : String)
deriving DecidableEq, Repr

/-- An outbound reply yielded by the handler: `event.plain_result(text)` or
`event.chain_result(segments)`. -/
inductive Reply where
  | plain (s : String)
  | chain (segs : List Seg)
deriving DecidableEq, Repr

/-- An observable event of one invocation, in program order. -/
inductive Event where
  /-- The call `extract_images_from_message(event)`. -/
  | extractCall
  /-- The call `plugin.api_client.image2image(...)`. -/
  | apiCall
  /-- A reply yielded to the chat host. -/
  | emit (r : Reply)
  /-- The call `plugin.rate_limiter.remove_processing(request_id)` in the
  `finally` block. -/
  | release
deriving DecidableEq, Repr

/-- Behaviour of the collaborators during one invocation.

`rateLimit` is modelled from the spec: `check_rate_limit` is repository code
outside `src/`; per the spec it either admits (yields nothing, modelled
`none`) or denies and yields one rejection message (modelled `some msg`).

`images` is modelled from the spec: `extract_images_from_message` is
repository code outside `src/`; per the spec it returns the (possibly empty)
sequence of attached image file paths.

`api` is the result of `plugin.api_client.image2image`: a local file path on
success, or a raised exception with the given message (`.error`). -/
structure Env where
  /-- Value stored under `image2image_steps` in `plugin.config`, if any;
  `plugin.config.get("image2image_steps", 25)` returns it, else 25. -/
  configSteps : Option Int
  /-- Value stored under `image2image_guidance_scale` in `plugin.config`,
  if any; the `get` call returns it, else 6.0. -/
  configGuidance : Option Rat
  /-- Modelled from the spec: outcome of `check_rate_limit` — `none` admits,
  `some msg` denies with rejection message `msg`. -/
  rateLimit : Option String
  /-- Modelled from the spec: paths returned by
  `extract_images_from_message(event)`. -/
  images : List String
  /-- Outcome of the generation call: `.ok path` or a raised exception
  carrying message `e` (`.error e`). -/
  api : Except String String
  /-- Wall-clock time of the generation call, in centiseconds. -/
  elapsedCentis : Nat

/-- Decimal rendering of a `Rat` standing for a Python `float`, matching
`str()` / f-string interpolation on floats whose shortest decimal form is at
most 30 fractional digits: an integer part, a point, and the fraction with at
least one digit (`str(6.0) = "6.0"`, `str(0.99) = "0.99"`). -/
def pyFloatStr (q : Rat) : String :=
  let k := match (List.range 31).find? (fun k => 10 ^ k % q.den == 0) with
           | some k => max k 1
           | none => 31
  let scaled : Nat := q.num.natAbs * 10 ^ k / q.den
  let ip := scaled / 10 ^ k
  let fp := scaled % 10 ^ k
  let fs := toString fp
  let pad := String.mk (List.replicate (k - fs.length) '0')
  (if q.num < 0 then "-" else "") ++ toString ip ++ "." ++ pad ++ fs

/-- Rendering of `f"{x:.2f}"` for a non-negative duration of `c`
centiseconds: the integer part followed by exactly two fractional digits. -/
def fmt2 (c : Nat) : String :=
  toString (c / 100) ++ "." ++
    String.mk [Nat.digitChar (c / 10 % 10), Nat.digitChar (c % 10)]

/-- The usage-help message yielded when the prompt is empty (source lines
71–81). -/
def promptHelpMsg : String :=
  "请提供生成提示词！\n\n" ++
  "使用方法：发送参照图片的同时输入 /ai-gitee image2image <提示词> [steps] [guidance_scale]\n\n" ++
  "示例：\n" ++
  "/ai-gitee image2image 生成一张相同风格的图片\n" ++
  "/ai-gitee image2image 保持人物特征，改变背景 30 7.5\n\n" ++
  "参数说明：\n" ++
  "- steps: 推理步数（可选，默认 25）\n" ++
  "- guidance_scale: 引导系数（可选，默认 6.0）\n\n" ++
  "输入 /ai-gitee help 查看更多说明"

/-- The missing-reference-image message (source lines 88–93). -/
def missingImageMsg : String :=
  "请发送参照图片！\n\n" ++
  "使用方法：发送参照图片的同时输入 /ai-gitee image2image <提示词> [steps] [guidance_scale]\n\n" ++
  "注意：仅支持单张参照图片"

/-- The too-many-reference-images message (source lines 97–100). -/
def tooManyImagesMsg : String :=
  "参照图片过多！\n\n" ++
  "图生图功能仅支持单张参照图片，请只发送一张图片。"

/-- The out-of-range `steps` message (source line 106). -/
def stepsRangeMsg (steps : Int) : String :=
  "steps 参数必须在 1-100 之间，当前值: " ++ toString steps

/-- The out-of-range `guidance_scale` message (source line 111). -/
def guidanceRangeMsg (guidance : Rat) : String :=
  "guidance_scale 参数必须在 1.0-20.0 之间，当前值: " ++ pyFloatStr guidance

/-- The progress acknowledgment (source line 119). -/
def progressMsg (steps : Int) (guidance : Rat) : String :=
  "正在根据参照图生成图片（steps=" ++ toString steps ++
  ", guidance_scale=" ++ pyFloatStr guidance ++ "），请稍候..."

/-- The text segment of the success reply (source line 143). -/
def doneText (c : Nat) : String :=
  "图生图完成，耗时：" ++ fmt2 c ++ "秒"

/-- The failure reply built in the `except` clause (source line 149). -/
def failMsg (e : String) : String :=
  "图生图失败: " ++ e

/-- `steps = plugin.config.get("image2image_steps", 25)` when the argument is
`None` (source lines 55–56). -/
def resolveSteps (env : Env) (steps? : Option Int) : Int :=
  steps?.getD (env.configSteps.getD 25)

/-- `guidance_scale = plugin.config.get("image2image_guidance_scale", 6.0)`
when the argument is `None` (source lines 57–58). -/
def resolveGuidance (env : Env) (guidance? : Option Rat) : Rat :=
  guidance?.getD (env.configGuidance.getD 6)

/-- Embedding of the `try` block of `image2image_command` (source lines
67–149): prompt check, image extraction (using `image_paths[0]` when exactly
one path is returned), range validation, progress acknowledgment, the API
call, and the success reply or the `except` clause's failure reply.  Inside
the `try`, the only operation that raises in this model is the API call;
its exception is caught by the `except` clause. -/
def tryBody (env : Env) (prompt : String) (steps : Int) (guidance : Rat) :
    List Event :=
  if prompt = "" then
    [.emit (.plain promptHelpMsg)]
  else
    .extractCall ::
    match env.images with
    | [] => [.emit (.plain missingImageMsg)]
    | _ :: _ :: _ => [.emit (.plain tooManyImagesMsg)]
    | [_refPath] =>
      if steps < 1 ∨ 100 < steps then
        [.emit (.plain (stepsRangeMsg steps))]
      else if guidance < 1 ∨ 20 < guidance then
        [.emit (.plain (guidanceRangeMsg guidance))]
      else
        .emit (.plain (progressMsg steps guidance)) ::
        .apiCall ::
        match env.api with
        | .ok path =>
          [.emit (.chain [.image path, .text (doneText env.elapsedCentis)])]
        | .error e => [.emit (.plain (failMsg e))]

/-- Embedding of `image2image_command` (source lines 17–152): the list of
events of one fully consumed invocation.  Defaults are resolved first (lines
55–58); the rate-limit loop (lines 63–65) runs before the `try`, so a denial
yields the rejection message and returns without ever entering the
`try`/`finally`; every path that enters the `try` ends with the `finally`
release (line 151). -/
def image2image_command (env : Env) (prompt : String)
    (steps? : Option Int) (guidance? : Option Rat) : List Event :=
  let steps := resolveSteps env steps?
  let guidance := resolveGuidance env guidance?
  match env.rateLimit with
  | some msg => [.emit (.plain msg)]
  | none => tryBody env prompt steps guidance ++ [.release]

/-- The replies yielded during an invocation, in order. -/
def emittedReplies (evs : List Event) : List Reply :=
  evs.filterMap fun e => match e with | .emit r => some r | _ => none

/-- How many times `rate_limiter.remove_processing` was invoked. -/
def releaseCount (evs : List Event) : Nat :=
  evs.countP fun e => match e with | .release => true | _ => false

/-- Whether `plugin.api_client.image2image` was invoked. -/
def apiInvoked (evs : List Event) : Bool :=
  evs.any fun e => match e with | .apiCall => true | _ => false

/-- Whether `extract_images_from_message` was invoked. -/
def extractorInvoked (evs : List Event) : Bool :=
  evs.any fun e => match e with | .extractCall => true | _ => false

/-- A concrete admitted environment with one attached image, used by the
witness theorems. -/
def envOk : Env :=
  { configSteps := none, configGuidance := none, rateLimit := none,
    images := ["ref.png"], api := .ok "/tmp/out.png", elapsedCentis := 234 }

/-- A concrete environment in which the rate limiter denies admission. -/
def envDenied : Env :=
  { configSteps := none, configGuidance := none,
    rateLimit := some "请求过于频繁，请稍后再试",
    images := ["ref.png"], api := .ok "/tmp/out.png", elapsedCentis := 234 }

/-- A concrete admitted environment with no attached image. -/
def envNoImage : Env :=
  { configSteps := none, configGuidance := none, rateLimit := none,
    images := [], api := .ok "/tmp/out.png", elapsedCentis := 234 }

/-- A concrete admitted environment with two attached images. -/
def envTwoImages : Env :=
  { configSteps := none, configGuidance := none, rateLimit := none,
    images := ["a.png", "b.png"], api := .ok "/tmp/out.png",
    elapsedCentis := 234 }

/-- A concrete admitted environment whose generation call raises an
exception with message "timeout". -/
def envTimeout : Env :=
  { configSteps := none, configGuidance := none, rateLimit := none,
    images := ["ref.png"], api := .error "timeout", elapsedCentis := 234 }

/-- A concrete admitted environment whose configuration stores the
out-of-range default `image2image_steps = 0`. -/
def envBadStepsCfg : Env :=
  { configSteps := some 0, configGuidance := none, rateLimit := none,
    images := ["ref.png"], api := .ok "/tmp/out.png", elapsedCentis := 234 }

/-- A concrete admitted environment whose configuration stores the
out-of-range default `image2image_guidance_scale = 0.5`. -/
def envBadGuidanceCfg : Env :=
  { configSteps := none, configGuidance := some (mkRat 1 2),
    rateLimit := none, images := ["ref.png"], api := .ok "/tmp/out.png",
    elapsedCentis := 234 }

example : pyFloatStr 6 = "6.0" := by decide
example : pyFloatStr (mkRat 99 100) = "0.99" := by decide
example : pyFloatStr (mkRat 15 2) = "7.5" := by decide
example : pyFloatStr (mkRat 2001 100) = "20.01" := by decide
example : fmt2 234 = "2.34" := by decide
example : fmt2 250 = "2.50" := by decide

example :
    image2image_command envDenied "p" none none =
      [.emit (.plain "请求过于频繁，请稍后再试")] := by decide

example :
    releaseCount (image2image_command envOk "p" none none) = 1 := by decide

/-- On a denied admission the handler yields the limiter's message and
returns before the `try` block. -/
theorem run_denied (env : Env) (p : String) (s? : Option Int)
    (g? : Option Rat) (msg : String) (h : env.rateLimit = some msg) :
    image2image_command env p s? g? = [.emit (.plain msg)] := by
  simp [image2image_command, h]

/-- On an admitted request the invocation is the `try` block followed by the
`finally` release. -/
theorem run_admitted (env : Env) (p : String) (s? : Option Int)
    (g? : Option Rat) (h : env.rateLimit = none) :
    image2image_command env p s? g? =
      tryBody env p (resolveSteps env s?) (resolveGuidance env g?) ++
        [.release] := by
  simp [image2image_command, h]

/-- The `try` block itself never calls `remove_processing`. -/
theorem releaseCount_tryBody (env : Env) (p : String) (s : Int) (g : Rat) :
    releaseCount (tryBody env p s g) = 0 := by
  unfold tryBody
  split
  · rfl
  · rcases h : env.images with _ | ⟨a, _ | ⟨b, t⟩⟩
    · simp [h, releaseCount]
    · simp only [h]
      split
      · rfl
      · split
        · rfl
        · cases env.api <;> rfl
    · simp [h, releaseCount]

/-- Every branch of the `try` block yields at least one reply. -/
theorem one_le_replies_tryBody (env : Env) (p : String) (s : Int) (g : Rat) :
    1 ≤ (emittedReplies (tryBody env p s g)).length := by
  unfold tryBody
  split
  · simp [emittedReplies]
  · rcases h : env.images with _ | ⟨a, _ | ⟨b, t⟩⟩
    · simp [h, emittedReplies]
    · simp only [h]
      split
      · simp [emittedReplies]
      · split
        · simp [emittedReplies]
        · cases env.api <;> simp [emittedReplies]
    · simp [h, emittedReplies]

/-- Replies of an event list split over append. -/
theorem emittedReplies_append (a b : List Event) :
    emittedReplies (a ++ b) = emittedReplies a ++ emittedReplies b := by
  simp [emittedReplies]

/-- The release in the `finally` block yields no reply, so the replies of an
admitted invocation are those of the `try` block. -/
theorem replies_run_admitted (env : Env) (p : String) (s? : Option Int)
    (g? : Option Rat) (h : env.rateLimit = none) :
    emittedReplies (image2image_command env p s? g?) =
      emittedReplies
        (tryBody env p (resolveSteps env s?) (resolveGuidance env g?)) := by
  rw [run_admitted env p s? g? h, emittedReplies_append]
  simp [emittedReplies]

/-- An admitted invocation releases the claim exactly once. -/
theorem releaseCount_run_admitted (env : Env) (p : String) (s? : Option Int)
    (g? : Option Rat) (h : env.rateLimit = none) :
    releaseCount (image2image_command env p s? g?) = 1 := by
  rw [run_admitted env p s? g? h]
  have h1 := releaseCount_tryBody env p (resolveSteps env s?)
    (resolveGuidance env g?)
  unfold releaseCount at h1 ⊢
  rw [List.countP_append, h1]
  rfl

/-- C1: on every invocation that passes the admission check —
any validation failure, generation failure, or normal success —
`rate_limiter.remove_processing(request_id)` is invoked exactly once, as the
final event before the output sequence completes.  (The admission-rejection
branch returns before the `try`/`finally` and performs no release; see the
counterexample theorem.) -/
theorem release_exactly_once_when_admitted (env : Env) (p : String)
    (s? : Option Int) (g? : Option Rat) (h : env.rateLimit = none) :
    releaseCount (image2image_command env p s? g?) = 1 ∧
    ∃ pre, image2image_command env p s? g? = pre ++ [Event.release] := by
  refine ⟨releaseCount_run_admitted env p s? g? h, ?_⟩
  exact ⟨tryBody env p (resolveSteps env s?) (resolveGuidance env g?),
    run_admitted env p s? g? h⟩

/-- C1 witness: a concrete admitted invocation. -/
theorem release_exactly_once_when_admitted_witness :
    releaseCount (image2image_command envOk "生成一张相同风格的图片" none none) = 1 ∧
    ∃ pre, image2image_command envOk "生成一张相同风格的图片" none none =
      pre ++ [Event.release] :=
  release_exactly_once_when_admitted envOk "生成一张相同风格的图片" none none rfl

/-- C1 counterexample: when the rate limiter denies admission, the handler
yields the rejection message and returns before entering the
`try`/`finally`, so `remove_processing` is invoked zero times — not exactly
once as the claim states for the admission-rejection branch. -/
theorem release_skipped_on_denied_admission :
    releaseCount
      (image2image_command envDenied "生成一张相同风格的图片" none none) = 0 := by
  decide

/-- C2: the handler is a total function of the collaborator behaviours in
this model (its embedding returns a plain event list, with the only raising
operation — the API call — caught by the `except` clause), every invocation
emits at least one reply, and every invocation that passes the admission
check releases the claim exactly once.  (The admission-rejection path emits
the limiter's reply but performs no claim release; see the counterexample
theorem.) -/
theorem always_replies_and_releases_when_admitted (env : Env) (p : String)
    (s? : Option Int) (g? : Option Rat) :
    1 ≤ (emittedReplies (image2image_command env p s? g?)).length ∧
    (env.rateLimit = none →
      releaseCount (image2image_command env p s? g?) = 1) := by
  cases h : env.rateLimit with
  | some msg =>
    rw [run_denied env p s? g? msg h]
    exact ⟨by simp [emittedReplies], fun hc => Option.noConfusion hc⟩
  | none =>
    refine ⟨?_, fun _ => releaseCount_run_admitted env p s? g? h⟩
    rw [replies_run_admitted env p s? g? h]
    exact one_le_replies_tryBody env p _ _

/-- C2 witness: a concrete admitted invocation replies and releases. -/
theorem always_replies_and_releases_when_admitted_witness :
    1 ≤ (emittedReplies (image2image_command envOk "p" none none)).length ∧
    releaseCount (image2image_command envOk "p" none none) = 1 :=
  ⟨(always_replies_and_releases_when_admitted envOk "p" none none).1,
   (always_replies_and_releases_when_admitted envOk "p" none none).2 rfl⟩

/-- C2 counterexample: the admission-rejection path is an error path that
ends with an emitted reply but without the claim release, contradicting
"every error path ends with an emitted reply message and the claim
release". -/
theorem denied_path_emits_reply_without_release :
    emittedReplies (image2image_command envDenied "生成一张相同风格的图片" none none) =
      [.plain "请求过于频繁，请稍后再试"] ∧
    releaseCount
      (image2image_command envDenied "生成一张相同风格的图片" none none) = 0 := by
  constructor <;> decide

/-- C7: when the rate limiter denies admission, the handler emits exactly
the limiter's rejection message and stops; image extraction and the
generation client are never invoked. -/
theorem denied_admission_no_processing (env : Env) (p : String)
    (s? : Option Int) (g? : Option Rat) (msg : String)
    (h : env.rateLimit = some msg) :
    image2image_command env p s? g? = [.emit (.plain msg)] ∧
    extractorInvoked (image2image_command env p s? g?) = false ∧
    apiInvoked (image2image_command env p s? g?) = false := by
  have hr := run_denied env p s? g? msg h
  rw [hr]
  exact ⟨rfl, rfl, rfl⟩

/-- C7 witness: a concrete denied invocation. -/
theorem denied_admission_no_processing_witness :
    image2image_command envDenied "生成一张相同风格的图片" none none =
      [.emit (.plain "请求过于频繁，请稍后再试")] ∧
    extractorInvoked
      (image2image_command envDenied "生成一张相同风格的图片" none none) = false ∧
    apiInvoked
      (image2image_command envDenied "生成一张相同风格的图片" none none) = false :=
  denied_admission_no_processing envDenied "生成一张相同风格的图片" none none
    "请求过于频繁，请稍后再试" rfl

/-- An admitted invocation with a non-empty prompt and exactly one extracted
image reaches the parameter-validation stage; this spells out the remaining
events. -/
theorem run_processing (env : Env) (p path : String) (s? : Option Int)
    (g? : Option Rat) (hrl : env.rateLimit = none) (hp : p ≠ "")
    (him : env.images = [path]) :
    image2image_command env p s? g? =
      .extractCall ::
      ((if resolveSteps env s? < 1 ∨ 100 < resolveSteps env s? then
          [.emit (.plain (stepsRangeMsg (resolveSteps env s?)))]
        else if resolveGuidance env g? < 1 ∨ 20 < resolveGuidance env g? then
          [.emit (.plain (guidanceRangeMsg (resolveGuidance env g?)))]
        else
          .emit (.plain (progressMsg (resolveSteps env s?)
            (resolveGuidance env g?))) ::
          .apiCall ::
          match env.api with
          | .ok outPath =>
            [.emit (.chain [.image outPath,
              .text (doneText env.elapsedCentis)])]
          | .error e => [.emit (.plain (failMsg e))]) ++
        [.release]) := by
  rw [run_admitted env p s? g? hrl]
  unfold tryBody
  rw [if_neg hp]
  simp only [him]
  rfl

/-- C3: given an admitted request with a non-empty prompt and exactly one
reference image, the resolved `steps` and `guidance_scale` are accepted —
the generation client is invoked — exactly when `steps ∈ [1, 100]` and
`guidance_scale ∈ [1.0, 20.0]`; an out-of-range `steps` yields exactly one
error reply containing its literal value and the client is never invoked,
and likewise for an out-of-range `guidance_scale` when `steps` is
in range. -/
theorem param_range_validation (env : Env) (p path : String)
    (s? : Option Int) (g? : Option Rat) (hrl : env.rateLimit = none)
    (hp : p ≠ "") (him : env.images = [path]) :
    (apiInvoked (image2image_command env p s? g?) = true ↔
      (1 ≤ resolveSteps env s? ∧ resolveSteps env s? ≤ 100 ∧
       1 ≤ resolveGuidance env g? ∧ resolveGuidance env g? ≤ 20)) ∧
    ((resolveSteps env s? < 1 ∨ 100 < resolveSteps env s?) →
      emittedReplies (image2image_command env p s? g?) =
        [.plain ("steps 参数必须在 1-100 之间，当前值: " ++
          toString (resolveSteps env s?))] ∧
      apiInvoked (image2image_command env p s? g?) = false) ∧
    ((1 ≤ resolveSteps env s? ∧ resolveSteps env s? ≤ 100) →
      (resolveGuidance env g? < 1 ∨ 20 < resolveGuidance env g?) →
      emittedReplies (image2image_command env p s? g?) =
        [.plain ("guidance_scale 参数必须在 1.0-20.0 之间，当前值: " ++
          pyFloatStr (resolveGuidance env g?))] ∧
      apiInvoked (image2image_command env p s? g?) = false) := by
  rw [run_processing env p path s? g? hrl hp him]
  by_cases h1 : resolveSteps env s? < 1 ∨ 100 < resolveSteps env s?
  · rw [if_pos h1]
    refine ⟨?_, fun _ => ?_, fun hin _ => ?_⟩
    · simp only [apiInvoked, List.any_cons, List.any_append, List.any_nil, Bool.or_self, Bool.or_false, Bool.false_eq_true, false_iff]
      rintro ⟨ha, hb, -, -⟩
      rcases h1 with h1 | h1 <;> omega
    · exact ⟨by simp [emittedReplies, stepsRangeMsg], by simp [apiInvoked]⟩
    · rcases h1 with h1 | h1 <;> [exact absurd hin.1 (by omega);
        exact absurd hin.2 (by omega)]
  · rw [if_neg h1]
    simp only [not_or, not_lt] at h1
    by_cases h2 : resolveGuidance env g? < 1 ∨ 20 < resolveGuidance env g?
    · rw [if_pos h2]
      refine ⟨?_, fun hc => ?_, fun _ _ => ?_⟩
      · simp only [apiInvoked, List.any_cons, List.any_append, List.any_nil, Bool.or_self, Bool.or_false, Bool.false_eq_true, false_iff]
        rintro ⟨-, -, hc, hd⟩
        rcases h2 with h2 | h2 <;>
          [exact absurd hc (not_le.mpr h2); exact absurd hd (not_le.mpr h2)]
      · rcases hc with hc | hc <;> omega
      · exact ⟨by simp [emittedReplies, guidanceRangeMsg],
          by simp [apiInvoked]⟩
    · rw [if_neg h2]
      simp only [not_or, not_lt] at h2
      refine ⟨?_, fun hc => ?_, fun _ hc => ?_⟩
      · refine ⟨fun _ => ⟨h1.1, h1.2, h2.1, h2.2⟩, fun _ => ?_⟩
        cases env.api <;> rfl
      · rcases hc with hc | hc <;> omega
      · rcases hc with hc | hc <;>
          [exact absurd hc (not_lt.mpr h2.1); exact absurd hc (not_lt.mpr h2.2)]

/-- C3 witness: the claim's boundary inputs — `steps` 1 and 100 and
`guidance_scale` 1.0 and 20.0 are accepted, while `steps` 0 and 101 and
`guidance_scale` 0.99 and 20.01 are rejected. -/
theorem param_range_validation_witness :
    apiInvoked (image2image_command envOk "p" (some 1) (some 1)) = true ∧
    apiInvoked (image2image_command envOk "p" (some 100) (some 20)) = true ∧
    apiInvoked (image2image_command envOk "p" (some 0) none) = false ∧
    apiInvoked (image2image_command envOk "p" (some 101) none) = false ∧
    apiInvoked
      (image2image_command envOk "p" (some 25) (some (mkRat 99 100))) =
        false ∧
    apiInvoked
      (image2image_command envOk "p" (some 25) (some (mkRat 2001 100))) =
        false :=
  ⟨(param_range_validation envOk "p" "ref.png" (some 1) (some 1) rfl
      (by decide) rfl).1.mpr (by decide),
   (param_range_validation envOk "p" "ref.png" (some 100) (some 20) rfl
      (by decide) rfl).1.mpr (by decide),
   ((param_range_validation envOk "p" "ref.png" (some 0) none rfl
      (by decide) rfl).2.1 (by decide)).2,
   ((param_range_validation envOk "p" "ref.png" (some 101) none rfl
      (by decide) rfl).2.1 (by decide)).2,
   ((param_range_validation envOk "p" "ref.png" (some 25)
      (some (mkRat 99 100)) rfl (by decide) rfl).2.2 (by decide)
      (by decide)).2,
   ((param_range_validation envOk "p" "ref.png" (some 25)
      (some (mkRat 2001 100)) rfl (by decide) rfl).2.2 (by decide)
      (by decide)).2⟩

/-- C4: an admitted request with a non-empty prompt requires exactly one
extracted reference image — zero images yields exactly the missing-image
error, more than one yields exactly the too-many-images error, and in both
cases the generation client is never invoked. -/
theorem single_reference_image_required (env : Env) (p : String)
    (s? : Option Int) (g? : Option Rat) (hrl : env.rateLimit = none)
    (hp : p ≠ "") :
    (env.images = [] →
      emittedReplies (image2image_command env p s? g?) =
        [.plain missingImageMsg] ∧
      apiInvoked (image2image_command env p s? g?) = false) ∧
    (2 ≤ env.images.length →
      emittedReplies (image2image_command env p s? g?) =
        [.plain tooManyImagesMsg] ∧
      apiInvoked (image2image_command env p s? g?) = false) := by
  rw [run_admitted env p s? g? hrl]
  unfold tryBody
  rw [if_neg hp]
  constructor
  · intro him
    simp [him, emittedReplies, apiInvoked]
  · intro hlen
    rcases h : env.images with _ | ⟨a, _ | ⟨b, t⟩⟩
    · rw [h] at hlen
      exact absurd hlen (by simp)
    · rw [h] at hlen
      exact absurd hlen (by simp)
    · simp [h, emittedReplies, apiInvoked]

/-- C4 witness: concrete invocations with zero and with two attached
images. -/
theorem single_reference_image_required_witness :
    (emittedReplies (image2image_command envNoImage "p" none none) =
        [.plain missingImageMsg] ∧
      apiInvoked (image2image_command envNoImage "p" none none) = false) ∧
    (emittedReplies (image2image_command envTwoImages "p" none none) =
        [.plain tooManyImagesMsg] ∧
      apiInvoked (image2image_command envTwoImages "p" none none) = false) :=
  ⟨(single_reference_image_required envNoImage "p" none none rfl
      (by decide)).1 rfl,
   (single_reference_image_required envTwoImages "p" none none rfl
      (by decide)).2 (by decide)⟩

/-- C5: an admitted request with an empty prompt yields exactly the
usage-help message, the generation client is never invoked, and the claim is
still released. -/
theorem empty_prompt_usage_help (env : Env) (s? : Option Int)
    (g? : Option Rat) (hrl : env.rateLimit = none) :
    emittedReplies (image2image_command env "" s? g?) =
      [.plain promptHelpMsg] ∧
    apiInvoked (image2image_command env "" s? g?) = false ∧
    releaseCount (image2image_command env "" s? g?) = 1 := by
  refine ⟨?_, ?_, releaseCount_run_admitted env "" s? g? hrl⟩ <;>
  · rw [run_admitted env "" s? g? hrl]
    unfold tryBody
    rw [if_pos rfl]
    simp [emittedReplies, apiInvoked]

/-- C5 witness: a concrete admitted invocation with an empty prompt. -/
theorem empty_prompt_usage_help_witness :
    emittedReplies (image2image_command envOk "" none none) =
      [.plain promptHelpMsg] ∧
    apiInvoked (image2image_command envOk "" none none) = false ∧
    releaseCount (image2image_command envOk "" none none) = 1 :=
  empty_prompt_usage_help envOk none none rfl

/-- C6: when the generation call raises an exception with any message, the
handler catches it, emits — after the progress acknowledgment — exactly one
plain error reply containing the exception's message text, does not
re-raise (the invocation's event list is well defined), and still performs
the claim release. -/
theorem generation_failure_caught (env : Env) (p path errText : String)
    (s? : Option Int) (g? : Option Rat) (hrl : env.rateLimit = none)
    (hp : p ≠ "") (him : env.images = [path])
    (hapi : env.api = .error errText)
    (hs1 : 1 ≤ resolveSteps env s?) (hs2 : resolveSteps env s? ≤ 100)
    (hg1 : 1 ≤ resolveGuidance env g?) (hg2 : resolveGuidance env g? ≤ 20) :
    emittedReplies (image2image_command env p s? g?) =
      [.plain (progressMsg (resolveSteps env s?) (resolveGuidance env g?)),
       .plain ("图生图失败: " ++ errText)] ∧
    releaseCount (image2image_command env p s? g?) = 1 := by
  refine ⟨?_, releaseCount_run_admitted env p s? g? hrl⟩
  have hns : ¬(resolveSteps env s? < 1 ∨ 100 < resolveSteps env s?) := by
    push_neg
    exact ⟨hs1, hs2⟩
  have hng : ¬(resolveGuidance env g? < 1 ∨ 20 < resolveGuidance env g?) := by
    push_neg
    exact ⟨hg1, hg2⟩
  rw [run_processing env p path s? g? hrl hp him, if_neg hns, if_neg hng,
    hapi]
  simp [emittedReplies, failMsg]

/-- C6 witness: a concrete invocation whose generation call raises
"timeout". -/
theorem generation_failure_caught_witness :
    emittedReplies (image2image_command envTimeout "p" none none) =
      [.plain (progressMsg (resolveSteps envTimeout none)
        (resolveGuidance envTimeout none)),
       .plain ("图生图失败: " ++ "timeout")] ∧
    releaseCount (image2image_command envTimeout "p" none none) = 1 :=
  generation_failure_caught envTimeout "p" "ref.png" "timeout" none none rfl
    (by decide) rfl rfl (by decide) (by decide) (by decide) (by decide)

/-- C8: when `steps` or `guidance_scale` is absent, the handler resolves it
from the configuration store with fallback defaults 25 and 6.0; in the
default case (nothing configured either) the progress acknowledgment's text
contains "steps=25, guidance_scale=6.0". -/
theorem defaults_resolution_and_ack (env : Env) (p path : String)
    (hrl : env.rateLimit = none) (hp : p ≠ "") (him : env.images = [path]) :
    resolveSteps env none = env.configSteps.getD 25 ∧
    resolveGuidance env none = env.configGuidance.getD 6 ∧
    (env.configSteps = none → env.configGuidance = none →
      (emittedReplies (image2image_command env p none none)).head? =
        some (.plain
          "正在根据参照图生成图片（steps=25, guidance_scale=6.0），请稍候...")) := by
  refine ⟨rfl, rfl, fun hcs hcg => ?_⟩
  have hs : resolveSteps env none = 25 := by simp [resolveSteps, hcs]
  have hg : resolveGuidance env none = 6 := by simp [resolveGuidance, hcg]
  have hmsg : progressMsg 25 6 =
      "正在根据参照图生成图片（steps=25, guidance_scale=6.0），请稍候..." := by decide
  rw [run_processing env p path none none hrl hp him, hs, hg,
    if_neg (by decide), if_neg (by decide), hmsg]
  cases env.api <;> simp [emittedReplies]

/-- C8 witness: a concrete invocation with nothing configured and no
explicit parameters. -/
theorem defaults_resolution_and_ack_witness :
    resolveSteps envOk none = envOk.configSteps.getD 25 ∧
    resolveGuidance envOk none = envOk.configGuidance.getD 6 ∧
    (emittedReplies
        (image2image_command envOk "生成一张相同风格的图片" none none)).head? =
      some (.plain
        "正在根据参照图生成图片（steps=25, guidance_scale=6.0），请稍候...") :=
  ⟨(defaults_resolution_and_ack envOk "生成一张相同风格的图片" "ref.png" rfl
      (by decide) rfl).1,
   (defaults_resolution_and_ack envOk "生成一张相同风格的图片" "ref.png" rfl
      (by decide) rfl).2.1,
   (defaults_resolution_and_ack envOk "生成一张相同风格的图片" "ref.png" rfl
      (by decide) rfl).2.2 rfl rfl⟩

/-- C9: on a successful generation the events are, in order: image
extraction, the progress acknowledgment (before the client is invoked), the
client call, one composite reply made of the generated image (from the
returned path) followed by a text segment reporting the elapsed wall-clock
time formatted to two decimal places, and the claim release. -/
theorem success_event_sequence (env : Env) (p path outPath : String)
    (s? : Option Int) (g? : Option Rat) (hrl : env.rateLimit = none)
    (hp : p ≠ "") (him : env.images = [path]) (hapi : env.api = .ok outPath)
    (hs1 : 1 ≤ resolveSteps env s?) (hs2 : resolveSteps env s? ≤ 100)
    (hg1 : 1 ≤ resolveGuidance env g?) (hg2 : resolveGuidance env g? ≤ 20) :
    image2image_command env p s? g? =
      [.extractCall,
       .emit (.plain (progressMsg (resolveSteps env s?)
         (resolveGuidance env g?))),
       .apiCall,
       .emit (.chain [.image outPath,
         .text ("图生图完成，耗时：" ++ fmt2 env.elapsedCentis ++ "秒")]),
       .release] := by
  have hns : ¬(resolveSteps env s? < 1 ∨ 100 < resolveSteps env s?) := by
    push_neg
    exact ⟨hs1, hs2⟩
  have hng : ¬(resolveGuidance env g? < 1 ∨ 20 < resolveGuidance env g?) := by
    push_neg
    exact ⟨hg1, hg2⟩
  rw [run_processing env p path s? g? hrl hp him, if_neg hns, if_neg hng,
    hapi]
  rfl

/-- C9 witness: the spec's end-to-end success scenario — one attached image,
client returns `/tmp/out.png` after 2.34 seconds. -/
theorem success_event_sequence_witness :
    image2image_command envOk "生成一张相同风格的图片" none none =
      [.extractCall,
       .emit (.plain (progressMsg (resolveSteps envOk none)
         (resolveGuidance envOk none))),
       .apiCall,
       .emit (.chain [.image "/tmp/out.png",
         .text ("图生图完成，耗时：" ++ fmt2 envOk.elapsedCentis ++ "秒")]),
       .release] :=
  success_event_sequence envOk "生成一张相同风格的图片" "ref.png" "/tmp/out.png"
    none none rfl (by decide) rfl rfl (by decide) (by decide) (by decide)
    (by decide)

/-- C10: range validation applies to config-supplied defaults — when the
user omits `steps` (resp. `guidance_scale`) and the configuration store
returns an out-of-range value, the handler emits the same parameter error
naming that value and never invokes the generation client. -/
theorem config_defaults_validated (env : Env) (p path : String)
    (hrl : env.rateLimit = none) (hp : p ≠ "") (him : env.images = [path]) :
    (∀ c : Int, env.configSteps = some c → (c < 1 ∨ 100 < c) →
      emittedReplies (image2image_command env p none none) =
        [.plain ("steps 参数必须在 1-100 之间，当前值: " ++ toString c)] ∧
      apiInvoked (image2image_command env p none none) = false) ∧
    (∀ c : Rat, env.configGuidance = some c → (c < 1 ∨ 20 < c) →
      1 ≤ resolveSteps env none → resolveSteps env none ≤ 100 →
      emittedReplies (image2image_command env p none none) =
        [.plain ("guidance_scale 参数必须在 1.0-20.0 之间，当前值: " ++
          pyFloatStr c)] ∧
      apiInvoked (image2image_command env p none none) = false) := by
  constructor
  · intro c hc hrange
    have hs : resolveSteps env none = c := by simp [resolveSteps, hc]
    rw [run_processing env p path none none hrl hp him, hs, if_pos hrange]
    exact ⟨by simp [emittedReplies, stepsRangeMsg], by simp [apiInvoked]⟩
  · intro c hc hrange hs1 hs2
    have hg : resolveGuidance env none = c := by simp [resolveGuidance, hc]
    have hns : ¬(resolveSteps env none < 1 ∨ 100 < resolveSteps env none) := by
      push_neg
      exact ⟨hs1, hs2⟩
    rw [run_processing env p path none none hrl hp him, hg, if_neg hns,
      if_pos hrange]
    exact ⟨by simp [emittedReplies, guidanceRangeMsg], by simp [apiInvoked]⟩

/-- C10 witness: configured `steps = 0` and configured
`guidance_scale = 0.5` are both rejected with the error naming the value. -/
theorem config_defaults_validated_witness :
    (emittedReplies (image2image_command envBadStepsCfg "p" none none) =
        [.plain ("steps 参数必须在 1-100 之间，当前值: " ++ toString (0 : Int))] ∧
      apiInvoked (image2image_command envBadStepsCfg "p" none none) =
        false) ∧
    (emittedReplies (image2image_command envBadGuidanceCfg "p" none none) =
        [.plain ("guidance_scale 参数必须在 1.0-20.0 之间，当前值: " ++
          pyFloatStr (mkRat 1 2))] ∧
      apiInvoked (image2image_command envBadGuidanceCfg "p" none none) =
        false) :=
  ⟨(config_defaults_validated envBadStepsCfg "p" "ref.png" rfl (by decide)
      rfl).1 0 rfl (by decide),
   (config_defaults_validated envBadGuidanceCfg "p" "ref.png" rfl (by decide)
      rfl).2 (mkRat 1 2) rfl (by decide) (by decide) (by decide)⟩

end Image2Image
